import Mathlib

/-
  Verification development for `src/services/face_analyze/base/base_models.py`
  of the FeelFlow-API repository.

  The module is embedded shallowly:
  * The Keras graph construction is modelled symbolically.  A layer-building
    call (`Conv2D(...)(x)`, `BatchNormalization(...)(x)`, ...) is recorded as a
    `LayerCall` value carrying the hyperparameters the Python source passes,
    and a symbolic tensor is just its static shape (`SymT`, the batch axis
    omitted), propagated through each layer by the usual Keras shape rules.
  * `FaceNetBase._inception_res_netV2` is transliterated statement by
    statement from the source: every layer call of the Python function appears
    here in the same order with the same hyperparameters and the same layer
    name.
  * Filesystem state is a list of the paths that exist (`FS`), and the
    externally visible behaviour of `BaseModel._download` /
    `FaceNetBase.load_model` is an effect trace of `Event`s (network downloads
    and weight loads) next to the resulting filesystem.
  * Floating point hyperparameters (momentum 0.995, epsilon 0.001, the
    residual scaling factors, the dropout rate) are represented as the exact
    rationals the decimal literals denote; no float arithmetic is performed on
    them, they are inert parameter data, so this is faithful.
-/

namespace FeelFlow

/-- Padding mode of a convolution / pooling layer: the Keras `"valid"` and
`"same"` strings of the source. -/
inductive Padding
| valid
| same
deriving DecidableEq, Repr

/-- One layer-construction call of the Keras graph, carrying exactly the
hyperparameters the Python source passes.  The `lambdaScale` constructor is the
`Lambda(scaling, output_shape=int_shape(up)[1:], arguments={"scale": v})` call:
the wrapped `scaling` function is elementwise multiplication by `scale`, the
layer has no `name` argument in the source, and its output shape equals its
input shape. -/
inductive LayerCall
| inputLayer (shape : List Nat)
| conv2d (filters : Nat) (kernel : Nat × Nat) (strides : Nat) (padding : Padding)
    (useBias : Bool) (name : String)
| batchNorm (axis : Option Nat) (momentum epsilon : ℚ) (scale : Bool) (name : String)
| activation (fn : String) (name : String)
| maxPool (pool strides : Nat) (padding : Padding) (name : String)
| concat (axis : Nat) (name : String)
| lambdaScale (scale : ℚ)
| addLayer
| globalAvgPool (name : String)
| dropout (rate : ℚ) (name : String)
| dense (units : Nat) (useBias : Bool) (name : String)
deriving DecidableEq, Repr

/-- A symbolic tensor: its static shape with the batch axis omitted, so the
`Input(shape=(160, 160, 3))` tensor is `[160, 160, 3]`. -/
abbrev SymT := List Nat

/-- The graph under construction: the layer calls issued so far, most recent
first (reversed into source order when the `Model` is produced). -/
structure GraphBuilder where
  layersRev : List LayerCall
deriving DecidableEq, Repr

/-- The finished Keras `Model`: the input tensor's shape, the output tensor's
shape, the model name, and the layer calls in the order the source issues
them. -/
structure Model where
  inputShape : SymT
  outShape : SymT
  name : String
  layers : List LayerCall
deriving DecidableEq, Repr

/-- Record one more layer call. -/
def push (g : GraphBuilder) (l : LayerCall) : GraphBuilder :=
  { layersRev := l :: g.layersRev }

/-- Spatial output extent of a convolution / pooling window: Keras computes
`(n - k) / s + 1` for `"valid"` padding and `ceil (n / s)` for `"same"`. -/
def convDim : Padding → Nat → Nat → Nat → Nat
| Padding.valid, n, k, s => (n - k) / s + 1
| Padding.same, n, _, s => (n + s - 1) / s

/-- Output shape of a `Conv2D` layer on a height-width-channels tensor. -/
def conv2dShape (filters : Nat) (kernel : Nat × Nat) (strides : Nat)
    (padding : Padding) : SymT → SymT
| [h, w, _] =>
    [convDim padding h kernel.1 strides, convDim padding w kernel.2 strides, filters]
| _ => []

/-- Output shape of a `MaxPooling2D` layer on a height-width-channels tensor. -/
def maxPoolShape (pool strides : Nat) (padding : Padding) : SymT → SymT
| [h, w, c] =>
    [convDim padding h pool strides, convDim padding w pool strides, c]
| _ => []

/-- Output shape of `Concatenate(axis=3)` (the channel axis, the batch axis
counting as axis 0): the spatial extents must agree and the channel counts are
summed. -/
def concatShape : List SymT → SymT
| [] => []
| ts@([h, w, _] :: rest) =>
    if rest.all (fun u => u.length == 3 && u.take 2 == [h, w]) then
      [h, w, ts.foldr (fun u acc => u.getD 2 0 + acc) 0]
    else []
| _ => []

/-- Output shape of the functional `add` merge: all summands must have the same
shape, which is also the output shape. -/
def addMergeShape : List SymT → SymT
| [] => []
| t :: rest => if rest.all (fun u => u == t) then t else []

/-- Keras `Input(shape=s)`: registers the input layer and yields a tensor of that
shape. -/
def Input (g : GraphBuilder) (shape : List Nat) : GraphBuilder × SymT :=
  (push g (LayerCall.inputLayer shape), shape)

/-- Keras `Conv2D(filters, kernel, strides=…, padding=…, use_bias=…, name=…)(t)`. -/
def Conv2D (g : GraphBuilder) (filters : Nat) (kernel : Nat × Nat) (strides : Nat)
    (padding : Padding) (useBias : Bool) (name : String) (t : SymT) :
    GraphBuilder × SymT :=
  (push g (LayerCall.conv2d filters kernel strides padding useBias name),
   conv2dShape filters kernel strides padding t)

/-- Keras `BatchNormalization(axis=…, momentum=…, epsilon=…, scale=…, name=…)(t)`:
shape preserving. -/
def BatchNormalization (g : GraphBuilder) (axis : Option Nat) (momentum epsilon : ℚ)
    (scale : Bool) (name : String) (t : SymT) : GraphBuilder × SymT :=
  (push g (LayerCall.batchNorm axis momentum epsilon scale name), t)

/-- Keras `Activation(fn, name=…)(t)`: shape preserving. -/
def Activation (g : GraphBuilder) (fn : String) (name : String) (t : SymT) :
    GraphBuilder × SymT :=
  (push g (LayerCall.activation fn name), t)

/-- Keras `MaxPooling2D(pool, strides=…, padding=…, name=…)(t)`; the source either
passes `padding="valid"` explicitly or omits it, and `"valid"` is the Keras
default, so both transliterate to `Padding.valid`. -/
def MaxPooling2D (g : GraphBuilder) (pool strides : Nat) (padding : Padding)
    (name : String) (t : SymT) : GraphBuilder × SymT :=
  (push g (LayerCall.maxPool pool strides padding name),
   maxPoolShape pool strides padding t)

/-- Keras `Concatenate(axis=…, name=…)(ts)`. -/
def Concatenate (g : GraphBuilder) (axis : Nat) (name : String) (ts : List SymT) :
    GraphBuilder × SymT :=
  (push g (LayerCall.concat axis name), concatShape ts)

/-- Keras `Lambda(scaling, output_shape=int_shape(up)[1:], arguments={"scale": v})(t)`:
elementwise multiplication by `v`, hence shape preserving — the source states
this itself by passing `int_shape(up)[1:]` as the output shape. -/
def Lambda (g : GraphBuilder) (scale : ℚ) (t : SymT) : GraphBuilder × SymT :=
  (push g (LayerCall.lambdaScale scale), t)

/-- The functional `add([…])` merge layer. -/
def addMerge (g : GraphBuilder) (ts : List SymT) : GraphBuilder × SymT :=
  (push g LayerCall.addLayer, addMergeShape ts)

/-- Keras `GlobalAveragePooling2D(name=…)(t)`: averages out the spatial axes, leaving
the channel axis. -/
def GlobalAveragePooling2D (g : GraphBuilder) (name : String) (t : SymT) :
    GraphBuilder × SymT :=
  (push g (LayerCall.globalAvgPool name),
   match t with
   | [_, _, c] => [c]
   | _ => [])

/-- Keras `Dropout(rate, name=…)(t)`: shape preserving. -/
def Dropout (g : GraphBuilder) (rate : ℚ) (name : String) (t : SymT) :
    GraphBuilder × SymT :=
  (push g (LayerCall.dropout rate name), t)

/-- Keras `Dense(units, use_bias=…, name=…)(t)` on a rank-1 tensor. -/
def Dense (g : GraphBuilder) (units : Nat) (useBias : Bool) (name : String)
    (t : SymT) : GraphBuilder × SymT :=
  (push g (LayerCall.dense units useBias name),
   match t with
   | [_] => [units]
   | _ => [])


namespace FaceNetBase

/-- Segment 1 of 15 of the `_inception_res_netV2` layer sequence, split only so that elaboration recursion stays shallow; concatenated in order, the segments are the statement-by-statement transliteration of the source body. -/
def seg1 (g : GraphBuilder) (x : SymT) : GraphBuilder × SymT :=
  let (g, x) := Conv2D g 32 (3, 3) 2 Padding.valid false "Conv2d_1a_3x3" x
  let (g, x) := BatchNormalization g (some 3) (995/1000 : ℚ) (1/1000 : ℚ) false "Conv2d_1a_3x3_BatchNorm" x
  let (g, x) := Activation g "relu" "Conv2d_1a_3x3_Activation" x
  let (g, x) := Conv2D g 32 (3, 3) 1 Padding.valid false "Conv2d_2a_3x3" x
  let (g, x) := BatchNormalization g (some 3) (995/1000 : ℚ) (1/1000 : ℚ) false "Conv2d_2a_3x3_BatchNorm" x
  let (g, x) := Activation g "relu" "Conv2d_2a_3x3_Activation" x
  let (g, x) := Conv2D g 64 (3, 3) 1 Padding.same false "Conv2d_2b_3x3" x
  let (g, x) := BatchNormalization g (some 3) (995/1000 : ℚ) (1/1000 : ℚ) false "Conv2d_2b_3x3_BatchNorm" x
  let (g, x) := Activation g "relu" "Conv2d_2b_3x3_Activation" x
  let (g, x) := MaxPooling2D g 3 2 Padding.valid "MaxPool_3a_3x3" x
  let (g, x) := Conv2D g 80 (1, 1) 1 Padding.valid false "Conv2d_3b_1x1" x
  let (g, x) := BatchNormalization g (some 3) (995/1000 : ℚ) (1/1000 : ℚ) false "Conv2d_3b_1x1_BatchNorm" x
  let (g, x) := Activation g "relu" "Conv2d_3b_1x1_Activation" x
  let (g, x) := Conv2D g 192 (3, 3) 1 Padding.valid false "Conv2d_4a_3x3" x
  let (g, x) := BatchNormalization g (some 3) (995/1000 : ℚ) (1/1000 : ℚ) false "Conv2d_4a_3x3_BatchNorm" x
  let (g, x) := Activation g "relu" "Conv2d_4a_3x3_Activation" x
  let (g, x) := Conv2D g 256 (3, 3) 2 Padding.valid false "Conv2d_4b_3x3" x
  let (g, x) := BatchNormalization g (some 3) (995/1000 : ℚ) (1/1000 : ℚ) false "Conv2d_4b_3x3_BatchNorm" x
  let (g, x) := Activation g "relu" "Conv2d_4b_3x3_Activation" x
  let (g, branch_0) := Conv2D g 32 (1, 1) 1 Padding.same false "Block35_1_Branch_0_Conv2d_1x1" x
  let (g, branch_0) := BatchNormalization g (some 3) (995/1000 : ℚ) (1/1000 : ℚ) false "Block35_1_Branch_0_Conv2d_1x1_BatchNorm" branch_0
  let (g, branch_0) := Activation g "relu" "Block35_1_Branch_0_Conv2d_1x1_Activation" branch_0
  let (g, branch_1) := Conv2D g 32 (1, 1) 1 Padding.same false "Block35_1_Branch_1_Conv2d_0a_1x1" x
  let (g, branch_1) := BatchNormalization g (some 3) (995/1000 : ℚ) (1/1000 : ℚ) false "Block35_1_Branch_1_Conv2d_0a_1x1_BatchNorm" branch_1
  let (g, branch_1) := Activation g "relu" "Block35_1_Branch_1_Conv2d_0a_1x1_Activation" branch_1
  let (g, branch_1) := Conv2D g 32 (3, 3) 1 Padding.same false "Block35_1_Branch_1_Conv2d_0b_3x3" branch_1
  let (g, branch_1) := BatchNormalization g (some 3) (995/1000 : ℚ) (1/1000 : ℚ) false "Block35_1_Branch_1_Conv2d_0b_3x3_BatchNorm" branch_1
  let (g, branch_1) := Activation g "relu" "Block35_1_Branch_1_Conv2d_0b_3x3_Activation" branch_1
  let (g, branch_2) := Conv2D g 32 (1, 1) 1 Padding.same false "Block35_1_Branch_2_Conv2d_0a_1x1" x
  let (g, branch_2) := BatchNormalization g (some 3) (995/1000 : ℚ) (1/1000 : ℚ) false "Block35_1_Branch_2_Conv2d_0a_1x1_BatchNorm" branch_2
  let (g, branch_2) := Activation g "relu" "Block35_1_Branch_2_Conv2d_0a_1x1_Activation" branch_2
  let (g, branch_2) := Conv2D g 32 (3, 3) 1 Padding.same false "Block35_1_Branch_2_Conv2d_0b_3x3" branch_2
  let (g, branch_2) := BatchNormalization g (some 3) (995/1000 : ℚ) (1/1000 : ℚ) false "Block35_1_Branch_2_Conv2d_0b_3x3_BatchNorm" branch_2
  let (g, branch_2) := Activation g "relu" "Block35_1_Branch_2_Conv2d_0b_3x3_Activation" branch_2
  let (g, branch_2) := Conv2D g 32 (3, 3) 1 Padding.same false "Block35_1_Branch_2_Conv2d_0c_3x3" branch_2
  let (g, branch_2) := BatchNormalization g (some 3) (995/1000 : ℚ) (1/1000 : ℚ) false "Block35_1_Branch_2_Conv2d_0c_3x3_BatchNorm" branch_2
  let (g, branch_2) := Activation g "relu" "Block35_1_Branch_2_Conv2d_0c_3x3_Activation" branch_2
  let branches := [branch_0, branch_1, branch_2]
  let (g, mixed) := Concatenate g 3 "Block35_1_Concatenate" branches
  let (g, up) := Conv2D g 256 (1, 1) 1 Padding.same true "Block35_1_Conv2d_1x1" mixed
  let (g, up) := Lambda g (17/100 : ℚ) up
  addMerge g [x, up]

/-- Segment 2 of 15 of the `_inception_res_netV2` layer sequence, split only so that elaboration recursion stays shallow; concatenated in order, the segments are the statement-by-statement transliteration of the source body. -/
def seg2 (g : GraphBuilder) (x : SymT) : GraphBuilder × SymT :=
  let (g, x) := Activation g "relu" "Block35_1_Activation" x
  let (g, branch_0) := Conv2D g 32 (1, 1) 1 Padding.same false "Block35_2_Branch_0_Conv2d_1x1" x
  let (g, branch_0) := BatchNormalization g (some 3) (995/1000 : ℚ) (1/1000 : ℚ) false "Block35_2_Branch_0_Conv2d_1x1_BatchNorm" branch_0
  let (g, branch_0) := Activation g "relu" "Block35_2_Branch_0_Conv2d_1x1_Activation" branch_0
  let (g, branch_1) := Conv2D g 32 (1, 1) 1 Padding.same false "Block35_2_Branch_1_Conv2d_0a_1x1" x
  let (g, branch_1) := BatchNormalization g (some 3) (995/1000 : ℚ) (1/1000 : ℚ) false "Block35_2_Branch_1_Conv2d_0a_1x1_BatchNorm" branch_1
  let (g, branch_1) := Activation g "relu" "Block35_2_Branch_1_Conv2d_0a_1x1_Activation" branch_1
  let (g, branch_1) := Conv2D g 32 (3, 3) 1 Padding.same false "Block35_2_Branch_1_Conv2d_0b_3x3" branch_1
  let (g, branch_1) := BatchNormalization g (some 3) (995/1000 : ℚ) (1/1000 : ℚ) false "Block35_2_Branch_1_Conv2d_0b_3x3_BatchNorm" branch_1
  let (g, branch_1) := Activation g "relu" "Block35_2_Branch_1_Conv2d_0b_3x3_Activation" branch_1
  let (g, branch_2) := Conv2D g 32 (1, 1) 1 Padding.same false "Block35_2_Branch_2_Conv2d_0a_1x1" x
  let (g, branch_2) := BatchNormalization g (some 3) (995/1000 : ℚ) (1/1000 : ℚ) false "Block35_2_Branch_2_Conv2d_0a_1x1_BatchNorm" branch_2
  let (g, branch_2) := Activation g "relu" "Block35_2_Branch_2_Conv2d_0a_1x1_Activation" branch_2
  let (g, branch_2) := Conv2D g 32 (3, 3) 1 Padding.same false "Block35_2_Branch_2_Conv2d_0b_3x3" branch_2
  let (g, branch_2) := BatchNormalization g (some 3) (995/1000 : ℚ) (1/1000 : ℚ) false "Block35_2_Branch_2_Conv2d_0b_3x3_BatchNorm" branch_2
  let (g, branch_2) := Activation g "relu" "Block35_2_Branch_2_Conv2d_0b_3x3_Activation" branch_2
  let (g, branch_2) := Conv2D g 32 (3, 3) 1 Padding.same false "Block35_2_Branch_2_Conv2d_0c_3x3" branch_2
  let (g, branch_2) := BatchNormalization g (some 3) (995/1000 : ℚ) (1/1000 : ℚ) false "Block35_2_Branch_2_Conv2d_0c_3x3_BatchNorm" branch_2
  let (g, branch_2) := Activation g "relu" "Block35_2_Branch_2_Conv2d_0c_3x3_Activation" branch_2
  let branches := [branch_0, branch_1, branch_2]
  let (g, mixed) := Concatenate g 3 "Block35_2_Concatenate" branches
  let (g, up) := Conv2D g 256 (1, 1) 1 Padding.same true "Block35_2_Conv2d_1x1" mixed
  let (g, up) := Lambda g (17/100 : ℚ) up
  addMerge g [x, up]

/-- Segment 3 of 15 of the `_inception_res_netV2` layer sequence, split only so that elaboration recursion stays shallow; concatenated in order, the segments are the statement-by-statement transliteration of the source body. -/
def seg3 (g : GraphBuilder) (x : SymT) : GraphBuilder × SymT :=
  let (g, x) := Activation g "relu" "Block35_2_Activation" x
  let (g, branch_0) := Conv2D g 32 (1, 1) 1 Padding.same false "Block35_3_Branch_0_Conv2d_1x1" x
  let (g, branch_0) := BatchNormalization g (some 3) (995/1000 : ℚ) (1/1000 : ℚ) false "Block35_3_Branch_0_Conv2d_1x1_BatchNorm" branch_0
  let (g, branch_0) := Activation g "relu" "Block35_3_Branch_0_Conv2d_1x1_Activation" branch_0
  let (g, branch_1) := Conv2D g 32 (1, 1) 1 Padding.same false "Block35_3_Branch_1_Conv2d_0a_1x1" x
  let (g, branch_1) := BatchNormalization g (some 3) (995/1000 : ℚ) (1/1000 : ℚ) false "Block35_3_Branch_1_Conv2d_0a_1x1_BatchNorm" branch_1
  let (g, branch_1) := Activation g "relu" "Block35_3_Branch_1_Conv2d_0a_1x1_Activation" branch_1
  let (g, branch_1) := Conv2D g 32 (3, 3) 1 Padding.same false "Block35_3_Branch_1_Conv2d_0b_3x3" branch_1
  let (g, branch_1) := BatchNormalization g (some 3) (995/1000 : ℚ) (1/1000 : ℚ) false "Block35_3_Branch_1_Conv2d_0b_3x3_BatchNorm" branch_1
  let (g, branch_1) := Activation g "relu" "Block35_3_Branch_1_Conv2d_0b_3x3_Activation" branch_1
  let (g, branch_2) := Conv2D g 32 (1, 1) 1 Padding.same false "Block35_3_Branch_2_Conv2d_0a_1x1" x
  let (g, branch_2) := BatchNormalization g (some 3) (995/1000 : ℚ) (1/1000 : ℚ) false "Block35_3_Branch_2_Conv2d_0a_1x1_BatchNorm" branch_2
  let (g, branch_2) := Activation g "relu" "Block35_3_Branch_2_Conv2d_0a_1x1_Activation" branch_2
  let (g, branch_2) := Conv2D g 32 (3, 3) 1 Padding.same false "Block35_3_Branch_2_Conv2d_0b_3x3" branch_2
  let (g, branch_2) := BatchNormalization g (some 3) (995/1000 : ℚ) (1/1000 : ℚ) false "Block35_3_Branch_2_Conv2d_0b_3x3_BatchNorm" branch_2
  let (g, branch_2) := Activation g "relu" "Block35_3_Branch_2_Conv2d_0b_3x3_Activation" branch_2
  let (g, branch_2) := Conv2D g 32 (3, 3) 1 Padding.same false "Block35_3_Branch_2_Conv2d_0c_3x3" branch_2
  let (g, branch_2) := BatchNormalization g (some 3) (995/1000 : ℚ) (1/1000 : ℚ) false "Block35_3_Branch_2_Conv2d_0c_3x3_BatchNorm" branch_2
  let (g, branch_2) := Activation g "relu" "Block35_3_Branch_2_Conv2d_0c_3x3_Activation" branch_2
  let branches := [branch_0, branch_1, branch_2]
  let (g, mixed) := Concatenate g 3 "Block35_3_Concatenate" branches
  let (g, up) := Conv2D g 256 (1, 1) 1 Padding.same true "Block35_3_Conv2d_1x1" mixed
  let (g, up) := Lambda g (17/100 : ℚ) up
  addMerge g [x, up]

/-- Segment 4 of 15 of the `_inception_res_netV2` layer sequence, split only so that elaboration recursion stays shallow; concatenated in order, the segments are the statement-by-statement transliteration of the source body. -/
def seg4 (g : GraphBuilder) (x : SymT) : GraphBuilder × SymT :=
  let (g, x) := Activation g "relu" "Block35_3_Activation" x
  let (g, branch_0) := Conv2D g 32 (1, 1) 1 Padding.same false "Block35_4_Branch_0_Conv2d_1x1" x
  let (g, branch_0) := BatchNormalization g (some 3) (995/1000 : ℚ) (1/1000 : ℚ) false "Block35_4_Branch_0_Conv2d_1x1_BatchNorm" branch_0
  let (g, branch_0) := Activation g "relu" "Block35_4_Branch_0_Conv2d_1x1_Activation" branch_0
  let (g, branch_1) := Conv2D g 32 (1, 1) 1 Padding.same false "Block35_4_Branch_1_Conv2d_0a_1x1" x
  let (g, branch_1) := BatchNormalization g (some 3) (995/1000 : ℚ) (1/1000 : ℚ) false "Block35_4_Branch_1_Conv2d_0a_1x1_BatchNorm" branch_1
  let (g, branch_1) := Activation g "relu" "Block35_4_Branch_1_Conv2d_0a_1x1_Activation" branch_1
  let (g, branch_1) := Conv2D g 32 (3, 3) 1 Padding.same false "Block35_4_Branch_1_Conv2d_0b_3x3" branch_1
  let (g, branch_1) := BatchNormalization g (some 3) (995/1000 : ℚ) (1/1000 : ℚ) false "Block35_4_Branch_1_Conv2d_0b_3x3_BatchNorm" branch_1
  let (g, branch_1) := Activation g "relu" "Block35_4_Branch_1_Conv2d_0b_3x3_Activation" branch_1
  let (g, branch_2) := Conv2D g 32 (1, 1) 1 Padding.same false "Block35_4_Branch_2_Conv2d_0a_1x1" x
  let (g, branch_2) := BatchNormalization g (some 3) (995/1000 : ℚ) (1/1000 : ℚ) false "Block35_4_Branch_2_Conv2d_0a_1x1_BatchNorm" branch_2
  let (g, branch_2) := Activation g "relu" "Block35_4_Branch_2_Conv2d_0a_1x1_Activation" branch_2
  let (g, branch_2) := Conv2D g 32 (3, 3) 1 Padding.same false "Block35_4_Branch_2_Conv2d_0b_3x3" branch_2
  let (g, branch_2) := BatchNormalization g (some 3) (995/1000 : ℚ) (1/1000 : ℚ) false "Block35_4_Branch_2_Conv2d_0b_3x3_BatchNorm" branch_2
  let (g, branch_2) := Activation g "relu" "Block35_4_Branch_2_Conv2d_0b_3x3_Activation" branch_2
  let (g, branch_2) := Conv2D g 32 (3, 3) 1 Padding.same false "Block35_4_Branch_2_Conv2d_0c_3x3" branch_2
  let (g, branch_2) := BatchNormalization g (some 3) (995/1000 : ℚ) (1/1000 : ℚ) false "Block35_4_Branch_2_Conv2d_0c_3x3_BatchNorm" branch_2
  let (g, branch_2) := Activation g "relu" "Block35_4_Branch_2_Conv2d_0c_3x3_Activation" branch_2
  let branches := [branch_0, branch_1, branch_2]
  let (g, mixed) := Concatenate g 3 "Block35_4_Concatenate" branches
  let (g, up) := Conv2D g 256 (1, 1) 1 Padding.same true "Block35_4_Conv2d_1x1" mixed
  let (g, up) := Lambda g (17/100 : ℚ) up
  addMerge g [x, up]

/-- Segment 5 of 15 of the `_inception_res_netV2` layer sequence, split only so that elaboration recursion stays shallow; concatenated in order, the segments are the statement-by-statement transliteration of the source body. -/
def seg5 (g : GraphBuilder) (x : SymT) : GraphBuilder × SymT :=
  let (g, x) := Activation g "relu" "Block35_4_Activation" x
  let (g, branch_0) := Conv2D g 32 (1, 1) 1 Padding.same false "Block35_5_Branch_0_Conv2d_1x1" x
  let (g, branch_0) := BatchNormalization g (some 3) (995/1000 : ℚ) (1/1000 : ℚ) false "Block35_5_Branch_0_Conv2d_1x1_BatchNorm" branch_0
  let (g, branch_0) := Activation g "relu" "Block35_5_Branch_0_Conv2d_1x1_Activation" branch_0
  let (g, branch_1) := Conv2D g 32 (1, 1) 1 Padding.same false "Block35_5_Branch_1_Conv2d_0a_1x1" x
  let (g, branch_1) := BatchNormalization g (some 3) (995/1000 : ℚ) (1/1000 : ℚ) false "Block35_5_Branch_1_Conv2d_0a_1x1_BatchNorm" branch_1
  let (g, branch_1) := Activation g "relu" "Block35_5_Branch_1_Conv2d_0a_1x1_Activation" branch_1
  let (g, branch_1) := Conv2D g 32 (3, 3) 1 Padding.same false "Block35_5_Branch_1_Conv2d_0b_3x3" branch_1
  let (g, branch_1) := BatchNormalization g (some 3) (995/1000 : ℚ) (1/1000 : ℚ) false "Block35_5_Branch_1_Conv2d_0b_3x3_BatchNorm" branch_1
  let (g, branch_1) := Activation g "relu" "Block35_5_Branch_1_Conv2d_0b_3x3_Activation" branch_1
  let (g, branch_2) := Conv2D g 32 (1, 1) 1 Padding.same false "Block35_5_Branch_2_Conv2d_0a_1x1" x
  let (g, branch_2) := BatchNormalization g (some 3) (995/1000 : ℚ) (1/1000 : ℚ) false "Block35_5_Branch_2_Conv2d_0a_1x1_BatchNorm" branch_2
  let (g, branch_2) := Activation g "relu" "Block35_5_Branch_2_Conv2d_0a_1x1_Activation" branch_2
  let (g, branch_2) := Conv2D g 32 (3, 3) 1 Padding.same false "Block35_5_Branch_2_Conv2d_0b_3x3" branch_2
  let (g, branch_2) := BatchNormalization g (some 3) (995/1000 : ℚ) (1/1000 : ℚ) false "Block35_5_Branch_2_Conv2d_0b_3x3_BatchNorm" branch_2
  let (g, branch_2) := Activation g "relu" "Block35_5_Branch_2_Conv2d_0b_3x3_Activation" branch_2
  let (g, branch_2) := Conv2D g 32 (3, 3) 1 Padding.same false "Block35_5_Branch_2_Conv2d_0c_3x3" branch_2
  let (g, branch_2) := BatchNormalization g (some 3) (995/1000 : ℚ) (1/1000 : ℚ) false "Block35_5_Branch_2_Conv2d_0c_3x3_BatchNorm" branch_2
  let (g, branch_2) := Activation g "relu" "Block35_5_Branch_2_Conv2d_0c_3x3_Activation" branch_2
  let branches := [branch_0, branch_1, branch_2]
  let (g, mixed) := Concatenate g 3 "Block35_5_Concatenate" branches
  let (g, up) := Conv2D g 256 (1, 1) 1 Padding.same true "Block35_5_Conv2d_1x1" mixed
  let (g, up) := Lambda g (17/100 : ℚ) up
  addMerge g [x, up]

/-- Segment 6 of 15 of the `_inception_res_netV2` layer sequence, split only so that elaboration recursion stays shallow; concatenated in order, the segments are the statement-by-statement transliteration of the source body. -/
def seg6 (g : GraphBuilder) (x : SymT) : GraphBuilder × SymT :=
  let (g, x) := Activation g "relu" "Block35_5_Activation" x
  let (g, branch_0) := Conv2D g 384 (3, 3) 2 Padding.valid false "Mixed_6a_Branch_0_Conv2d_1a_3x3" x
  let (g, branch_0) := BatchNormalization g (some 3) (995/1000 : ℚ) (1/1000 : ℚ) false "Mixed_6a_Branch_0_Conv2d_1a_3x3_BatchNorm" branch_0
  let (g, branch_0) := Activation g "relu" "Mixed_6a_Branch_0_Conv2d_1a_3x3_Activation" branch_0
  let (g, branch_1) := Conv2D g 192 (1, 1) 1 Padding.same false "Mixed_6a_Branch_1_Conv2d_0a_1x1" x
  let (g, branch_1) := BatchNormalization g (some 3) (995/1000 : ℚ) (1/1000 : ℚ) false "Mixed_6a_Branch_1_Conv2d_0a_1x1_BatchNorm" branch_1
  let (g, branch_1) := Activation g "relu" "Mixed_6a_Branch_1_Conv2d_0a_1x1_Activation" branch_1
  let (g, branch_1) := Conv2D g 192 (3, 3) 1 Padding.same false "Mixed_6a_Branch_1_Conv2d_0b_3x3" branch_1
  let (g, branch_1) := BatchNormalization g (some 3) (995/1000 : ℚ) (1/1000 : ℚ) false "Mixed_6a_Branch_1_Conv2d_0b_3x3_BatchNorm" branch_1
  let (g, branch_1) := Activation g "relu" "Mixed_6a_Branch_1_Conv2d_0b_3x3_Activation" branch_1
  let (g, branch_1) := Conv2D g 256 (3, 3) 2 Padding.valid false "Mixed_6a_Branch_1_Conv2d_1a_3x3" branch_1
  let (g, branch_1) := BatchNormalization g (some 3) (995/1000 : ℚ) (1/1000 : ℚ) false "Mixed_6a_Branch_1_Conv2d_1a_3x3_BatchNorm" branch_1
  let (g, branch_1) := Activation g "relu" "Mixed_6a_Branch_1_Conv2d_1a_3x3_Activation" branch_1
  let (g, branch_pool) := MaxPooling2D g 3 2 Padding.valid "Mixed_6a_Branch_2_MaxPool_1a_3x3" x
  let branches := [branch_0, branch_1, branch_pool]
  let (g, x) := Concatenate g 3 "Mixed_6a" branches
  let (g, branch_0) := Conv2D g 128 (1, 1) 1 Padding.same false "Block17_1_Branch_0_Conv2d_1x1" x
  let (g, branch_0) := BatchNormalization g (some 3) (995/1000 : ℚ) (1/1000 : ℚ) false "Block17_1_Branch_0_Conv2d_1x1_BatchNorm" branch_0
  let (g, branch_0) := Activation g "relu" "Block17_1_Branch_0_Conv2d_1x1_Activation" branch_0
  let (g, branch_1) := Conv2D g 128 (1, 1) 1 Padding.same false "Block17_1_Branch_1_Conv2d_0a_1x1" x
  let (g, branch_1) := BatchNormalization g (some 3) (995/1000 : ℚ) (1/1000 : ℚ) false "Block17_1_Branch_1_Conv2d_0a_1x1_BatchNorm" branch_1
  let (g, branch_1) := Activation g "relu" "Block17_1_Branch_1_Conv2d_0a_1x1_Activation" branch_1
  let (g, branch_1) := Conv2D g 128 (1, 7) 1 Padding.same false "Block17_1_Branch_1_Conv2d_0b_1x7" branch_1
  let (g, branch_1) := BatchNormalization g (some 3) (995/1000 : ℚ) (1/1000 : ℚ) false "Block17_1_Branch_1_Conv2d_0b_1x7_BatchNorm" branch_1
  let (g, branch_1) := Activation g "relu" "Block17_1_Branch_1_Conv2d_0b_1x7_Activation" branch_1
  let (g, branch_1) := Conv2D g 128 (7, 1) 1 Padding.same false "Block17_1_Branch_1_Conv2d_0c_7x1" branch_1
  let (g, branch_1) := BatchNormalization g (some 3) (995/1000 : ℚ) (1/1000 : ℚ) false "Block17_1_Branch_1_Conv2d_0c_7x1_BatchNorm" branch_1
  let (g, branch_1) := Activation g "relu" "Block17_1_Branch_1_Conv2d_0c_7x1_Activation" branch_1
  let branches := [branch_0, branch_1]
  let (g, mixed) := Concatenate g 3 "Block17_1_Concatenate" branches
  let (g, up) := Conv2D g 896 (1, 1) 1 Padding.same true "Block17_1_Conv2d_1x1" mixed
  let (g, up) := Lambda g (1/10 : ℚ) up
  addMerge g [x, up]

/-- Segment 7 of 15 of the `_inception_res_netV2` layer sequence, split only so that elaboration recursion stays shallow; concatenated in order, the segments are the statement-by-statement transliteration of the source body. -/
def seg7 (g : GraphBuilder) (x : SymT) : GraphBuilder × SymT :=
  let (g, x) := Activation g "relu" "Block17_1_Activation" x
  let (g, branch_0) := Conv2D g 128 (1, 1) 1 Padding.same false "Block17_2_Branch_0_Conv2d_1x1" x
  let (g, branch_0) := BatchNormalization g (some 3) (995/1000 : ℚ) (1/1000 : ℚ) false "Block17_2_Branch_0_Conv2d_1x1_BatchNorm" branch_0
  let (g, branch_0) := Activation g "relu" "Block17_2_Branch_0_Conv2d_1x1_Activation" branch_0
  let (g, branch_1) := Conv2D g 128 (1, 1) 1 Padding.same false "Block17_2_Branch_2_Conv2d_0a_1x1" x
  let (g, branch_1) := BatchNormalization g (some 3) (995/1000 : ℚ) (1/1000 : ℚ) false "Block17_2_Branch_2_Conv2d_0a_1x1_BatchNorm" branch_1
  let (g, branch_1) := Activation g "relu" "Block17_2_Branch_2_Conv2d_0a_1x1_Activation" branch_1
  let (g, branch_1) := Conv2D g 128 (1, 7) 1 Padding.same false "Block17_2_Branch_2_Conv2d_0b_1x7" branch_1
  let (g, branch_1) := BatchNormalization g (some 3) (995/1000 : ℚ) (1/1000 : ℚ) false "Block17_2_Branch_2_Conv2d_0b_1x7_BatchNorm" branch_1
  let (g, branch_1) := Activation g "relu" "Block17_2_Branch_2_Conv2d_0b_1x7_Activation" branch_1
  let (g, branch_1) := Conv2D g 128 (7, 1) 1 Padding.same false "Block17_2_Branch_2_Conv2d_0c_7x1" branch_1
  let (g, branch_1) := BatchNormalization g (some 3) (995/1000 : ℚ) (1/1000 : ℚ) false "Block17_2_Branch_2_Conv2d_0c_7x1_BatchNorm" branch_1
  let (g, branch_1) := Activation g "relu" "Block17_2_Branch_2_Conv2d_0c_7x1_Activation" branch_1
  let branches := [branch_0, branch_1]
  let (g, mixed) := Concatenate g 3 "Block17_2_Concatenate" branches
  let (g, up) := Conv2D g 896 (1, 1) 1 Padding.same true "Block17_2_Conv2d_1x1" mixed
  let (g, up) := Lambda g (1/10 : ℚ) up
  let (g, x) := addMerge g [x, up]
  let (g, x) := Activation g "relu" "Block17_2_Activation" x
  let (g, branch_0) := Conv2D g 128 (1, 1) 1 Padding.same false "Block17_3_Branch_0_Conv2d_1x1" x
  let (g, branch_0) := BatchNormalization g (some 3) (995/1000 : ℚ) (1/1000 : ℚ) false "Block17_3_Branch_0_Conv2d_1x1_BatchNorm" branch_0
  let (g, branch_0) := Activation g "relu" "Block17_3_Branch_0_Conv2d_1x1_Activation" branch_0
  let (g, branch_1) := Conv2D g 128 (1, 1) 1 Padding.same false "Block17_3_Branch_3_Conv2d_0a_1x1" x
  let (g, branch_1) := BatchNormalization g (some 3) (995/1000 : ℚ) (1/1000 : ℚ) false "Block17_3_Branch_3_Conv2d_0a_1x1_BatchNorm" branch_1
  let (g, branch_1) := Activation g "relu" "Block17_3_Branch_3_Conv2d_0a_1x1_Activation" branch_1
  let (g, branch_1) := Conv2D g 128 (1, 7) 1 Padding.same false "Block17_3_Branch_3_Conv2d_0b_1x7" branch_1
  let (g, branch_1) := BatchNormalization g (some 3) (995/1000 : ℚ) (1/1000 : ℚ) false "Block17_3_Branch_3_Conv2d_0b_1x7_BatchNorm" branch_1
  let (g, branch_1) := Activation g "relu" "Block17_3_Branch_3_Conv2d_0b_1x7_Activation" branch_1
  let (g, branch_1) := Conv2D g 128 (7, 1) 1 Padding.same false "Block17_3_Branch_3_Conv2d_0c_7x1" branch_1
  let (g, branch_1) := BatchNormalization g (some 3) (995/1000 : ℚ) (1/1000 : ℚ) false "Block17_3_Branch_3_Conv2d_0c_7x1_BatchNorm" branch_1
  let (g, branch_1) := Activation g "relu" "Block17_3_Branch_3_Conv2d_0c_7x1_Activation" branch_1
  let branches := [branch_0, branch_1]
  let (g, mixed) := Concatenate g 3 "Block17_3_Concatenate" branches
  let (g, up) := Conv2D g 896 (1, 1) 1 Padding.same true "Block17_3_Conv2d_1x1" mixed
  let (g, up) := Lambda g (1/10 : ℚ) up
  addMerge g [x, up]

/-- Segment 8 of 15 of the `_inception_res_netV2` layer sequence, split only so that elaboration recursion stays shallow; concatenated in order, the segments are the statement-by-statement transliteration of the source body. -/
def seg8 (g : GraphBuilder) (x : SymT) : GraphBuilder × SymT :=
  let (g, x) := Activation g "relu" "Block17_3_Activation" x
  let (g, branch_0) := Conv2D g 128 (1, 1) 1 Padding.same false "Block17_4_Branch_0_Conv2d_1x1" x
  let (g, branch_0) := BatchNormalization g (some 3) (995/1000 : ℚ) (1/1000 : ℚ) false "Block17_4_Branch_0_Conv2d_1x1_BatchNorm" branch_0
  let (g, branch_0) := Activation g "relu" "Block17_4_Branch_0_Conv2d_1x1_Activation" branch_0
  let (g, branch_1) := Conv2D g 128 (1, 1) 1 Padding.same false "Block17_4_Branch_4_Conv2d_0a_1x1" x
  let (g, branch_1) := BatchNormalization g (some 3) (995/1000 : ℚ) (1/1000 : ℚ) false "Block17_4_Branch_4_Conv2d_0a_1x1_BatchNorm" branch_1
  let (g, branch_1) := Activation g "relu" "Block17_4_Branch_4_Conv2d_0a_1x1_Activation" branch_1
  let (g, branch_1) := Conv2D g 128 (1, 7) 1 Padding.same false "Block17_4_Branch_4_Conv2d_0b_1x7" branch_1
  let (g, branch_1) := BatchNormalization g (some 3) (995/1000 : ℚ) (1/1000 : ℚ) false "Block17_4_Branch_4_Conv2d_0b_1x7_BatchNorm" branch_1
  let (g, branch_1) := Activation g "relu" "Block17_4_Branch_4_Conv2d_0b_1x7_Activation" branch_1
  let (g, branch_1) := Conv2D g 128 (7, 1) 1 Padding.same false "Block17_4_Branch_4_Conv2d_0c_7x1" branch_1
  let (g, branch_1) := BatchNormalization g (some 3) (995/1000 : ℚ) (1/1000 : ℚ) false "Block17_4_Branch_4_Conv2d_0c_7x1_BatchNorm" branch_1
  let (g, branch_1) := Activation g "relu" "Block17_4_Branch_4_Conv2d_0c_7x1_Activation" branch_1
  let branches := [branch_0, branch_1]
  let (g, mixed) := Concatenate g 3 "Block17_4_Concatenate" branches
  let (g, up) := Conv2D g 896 (1, 1) 1 Padding.same true "Block17_4_Conv2d_1x1" mixed
  let (g, up) := Lambda g (1/10 : ℚ) up
  let (g, x) := addMerge g [x, up]
  let (g, x) := Activation g "relu" "Block17_4_Activation" x
  let (g, branch_0) := Conv2D g 128 (1, 1) 1 Padding.same false "Block17_5_Branch_0_Conv2d_1x1" x
  let (g, branch_0) := BatchNormalization g (some 3) (995/1000 : ℚ) (1/1000 : ℚ) false "Block17_5_Branch_0_Conv2d_1x1_BatchNorm" branch_0
  let (g, branch_0) := Activation g "relu" "Block17_5_Branch_0_Conv2d_1x1_Activation" branch_0
  let (g, branch_1) := Conv2D g 128 (1, 1) 1 Padding.same false "Block17_5_Branch_5_Conv2d_0a_1x1" x
  let (g, branch_1) := BatchNormalization g (some 3) (995/1000 : ℚ) (1/1000 : ℚ) false "Block17_5_Branch_5_Conv2d_0a_1x1_BatchNorm" branch_1
  let (g, branch_1) := Activation g "relu" "Block17_5_Branch_5_Conv2d_0a_1x1_Activation" branch_1
  let (g, branch_1) := Conv2D g 128 (1, 7) 1 Padding.same false "Block17_5_Branch_5_Conv2d_0b_1x7" branch_1
  let (g, branch_1) := BatchNormalization g (some 3) (995/1000 : ℚ) (1/1000 : ℚ) false "Block17_5_Branch_5_Conv2d_0b_1x7_BatchNorm" branch_1
  let (g, branch_1) := Activation g "relu" "Block17_5_Branch_5_Conv2d_0b_1x7_Activation" branch_1
  let (g, branch_1) := Conv2D g 128 (7, 1) 1 Padding.same false "Block17_5_Branch_5_Conv2d_0c_7x1" branch_1
  let (g, branch_1) := BatchNormalization g (some 3) (995/1000 : ℚ) (1/1000 : ℚ) false "Block17_5_Branch_5_Conv2d_0c_7x1_BatchNorm" branch_1
  let (g, branch_1) := Activation g "relu" "Block17_5_Branch_5_Conv2d_0c_7x1_Activation" branch_1
  let branches := [branch_0, branch_1]
  let (g, mixed) := Concatenate g 3 "Block17_5_Concatenate" branches
  let (g, up) := Conv2D g 896 (1, 1) 1 Padding.same true "Block17_5_Conv2d_1x1" mixed
  let (g, up) := Lambda g (1/10 : ℚ) up
  addMerge g [x, up]

/-- Segment 9 of 15 of the `_inception_res_netV2` layer sequence, split only so that elaboration recursion stays shallow; concatenated in order, the segments are the statement-by-statement transliteration of the source body. -/
def seg9 (g : GraphBuilder) (x : SymT) : GraphBuilder × SymT :=
  let (g, x) := Activation g "relu" "Block17_5_Activation" x
  let (g, branch_0) := Conv2D g 128 (1, 1) 1 Padding.same false "Block17_6_Branch_0_Conv2d_1x1" x
  let (g, branch_0) := BatchNormalization g (some 3) (995/1000 : ℚ) (1/1000 : ℚ) false "Block17_6_Branch_0_Conv2d_1x1_BatchNorm" branch_0
  let (g, branch_0) := Activation g "relu" "Block17_6_Branch_0_Conv2d_1x1_Activation" branch_0
  let (g, branch_1) := Conv2D g 128 (1, 1) 1 Padding.same false "Block17_6_Branch_6_Conv2d_0a_1x1" x
  let (g, branch_1) := BatchNormalization g (some 3) (995/1000 : ℚ) (1/1000 : ℚ) false "Block17_6_Branch_6_Conv2d_0a_1x1_BatchNorm" branch_1
  let (g, branch_1) := Activation g "relu" "Block17_6_Branch_6_Conv2d_0a_1x1_Activation" branch_1
  let (g, branch_1) := Conv2D g 128 (1, 7) 1 Padding.same false "Block17_6_Branch_6_Conv2d_0b_1x7" branch_1
  let (g, branch_1) := BatchNormalization g (some 3) (995/1000 : ℚ) (1/1000 : ℚ) false "Block17_6_Branch_6_Conv2d_0b_1x7_BatchNorm" branch_1
  let (g, branch_1) := Activation g "relu" "Block17_6_Branch_6_Conv2d_0b_1x7_Activation" branch_1
  let (g, branch_1) := Conv2D g 128 (7, 1) 1 Padding.same false "Block17_6_Branch_6_Conv2d_0c_7x1" branch_1
  let (g, branch_1) := BatchNormalization g (some 3) (995/1000 : ℚ) (1/1000 : ℚ) false "Block17_6_Branch_6_Conv2d_0c_7x1_BatchNorm" branch_1
  let (g, branch_1) := Activation g "relu" "Block17_6_Branch_6_Conv2d_0c_7x1_Activation" branch_1
  let branches := [branch_0, branch_1]
  let (g, mixed) := Concatenate g 3 "Block17_6_Concatenate" branches
  let (g, up) := Conv2D g 896 (1, 1) 1 Padding.same true "Block17_6_Conv2d_1x1" mixed
  let (g, up) := Lambda g (1/10 : ℚ) up
  let (g, x) := addMerge g [x, up]
  let (g, x) := Activation g "relu" "Block17_6_Activation" x
  let (g, branch_0) := Conv2D g 128 (1, 1) 1 Padding.same false "Block17_7_Branch_0_Conv2d_1x1" x
  let (g, branch_0) := BatchNormalization g (some 3) (995/1000 : ℚ) (1/1000 : ℚ) false "Block17_7_Branch_0_Conv2d_1x1_BatchNorm" branch_0
  let (g, branch_0) := Activation g "relu" "Block17_7_Branch_0_Conv2d_1x1_Activation" branch_0
  let (g, branch_1) := Conv2D g 128 (1, 1) 1 Padding.same false "Block17_7_Branch_7_Conv2d_0a_1x1" x
  let (g, branch_1) := BatchNormalization g (some 3) (995/1000 : ℚ) (1/1000 : ℚ) false "Block17_7_Branch_7_Conv2d_0a_1x1_BatchNorm" branch_1
  let (g, branch_1) := Activation g "relu" "Block17_7_Branch_7_Conv2d_0a_1x1_Activation" branch_1
  let (g, branch_1) := Conv2D g 128 (1, 7) 1 Padding.same false "Block17_7_Branch_7_Conv2d_0b_1x7" branch_1
  let (g, branch_1) := BatchNormalization g (some 3) (995/1000 : ℚ) (1/1000 : ℚ) false "Block17_7_Branch_7_Conv2d_0b_1x7_BatchNorm" branch_1
  let (g, branch_1) := Activation g "relu" "Block17_7_Branch_7_Conv2d_0b_1x7_Activation" branch_1
  let (g, branch_1) := Conv2D g 128 (7, 1) 1 Padding.same false "Block17_7_Branch_7_Conv2d_0c_7x1" branch_1
  let (g, branch_1) := BatchNormalization g (some 3) (995/1000 : ℚ) (1/1000 : ℚ) false "Block17_7_Branch_7_Conv2d_0c_7x1_BatchNorm" branch_1
  let (g, branch_1) := Activation g "relu" "Block17_7_Branch_7_Conv2d_0c_7x1_Activation" branch_1
  let branches := [branch_0, branch_1]
  let (g, mixed) := Concatenate g 3 "Block17_7_Concatenate" branches
  let (g, up) := Conv2D g 896 (1, 1) 1 Padding.same true "Block17_7_Conv2d_1x1" mixed
  let (g, up) := Lambda g (1/10 : ℚ) up
  addMerge g [x, up]

/-- Segment 10 of 15 of the `_inception_res_netV2` layer sequence, split only so that elaboration recursion stays shallow; concatenated in order, the segments are the statement-by-statement transliteration of the source body. -/
def seg10 (g : GraphBuilder) (x : SymT) : GraphBuilder × SymT :=
  let (g, x) := Activation g "relu" "Block17_7_Activation" x
  let (g, branch_0) := Conv2D g 128 (1, 1) 1 Padding.same false "Block17_8_Branch_0_Conv2d_1x1" x
  let (g, branch_0) := BatchNormalization g (some 3) (995/1000 : ℚ) (1/1000 : ℚ) false "Block17_8_Branch_0_Conv2d_1x1_BatchNorm" branch_0
  let (g, branch_0) := Activation g "relu" "Block17_8_Branch_0_Conv2d_1x1_Activation" branch_0
  let (g, branch_1) := Conv2D g 128 (1, 1) 1 Padding.same false "Block17_8_Branch_8_Conv2d_0a_1x1" x
  let (g, branch_1) := BatchNormalization g (some 3) (995/1000 : ℚ) (1/1000 : ℚ) false "Block17_8_Branch_8_Conv2d_0a_1x1_BatchNorm" branch_1
  let (g, branch_1) := Activation g "relu" "Block17_8_Branch_8_Conv2d_0a_1x1_Activation" branch_1
  let (g, branch_1) := Conv2D g 128 (1, 7) 1 Padding.same false "Block17_8_Branch_8_Conv2d_0b_1x7" branch_1
  let (g, branch_1) := BatchNormalization g (some 3) (995/1000 : ℚ) (1/1000 : ℚ) false "Block17_8_Branch_8_Conv2d_0b_1x7_BatchNorm" branch_1
  let (g, branch_1) := Activation g "relu" "Block17_8_Branch_8_Conv2d_0b_1x7_Activation" branch_1
  let (g, branch_1) := Conv2D g 128 (7, 1) 1 Padding.same false "Block17_8_Branch_8_Conv2d_0c_7x1" branch_1
  let (g, branch_1) := BatchNormalization g (some 3) (995/1000 : ℚ) (1/1000 : ℚ) false "Block17_8_Branch_8_Conv2d_0c_7x1_BatchNorm" branch_1
  let (g, branch_1) := Activation g "relu" "Block17_8_Branch_8_Conv2d_0c_7x1_Activation" branch_1
  let branches := [branch_0, branch_1]
  let (g, mixed) := Concatenate g 3 "Block17_8_Concatenate" branches
  let (g, up) := Conv2D g 896 (1, 1) 1 Padding.same true "Block17_8_Conv2d_1x1" mixed
  let (g, up) := Lambda g (1/10 : ℚ) up
  let (g, x) := addMerge g [x, up]
  let (g, x) := Activation g "relu" "Block17_8_Activation" x
  let (g, branch_0) := Conv2D g 128 (1, 1) 1 Padding.same false "Block17_9_Branch_0_Conv2d_1x1" x
  let (g, branch_0) := BatchNormalization g (some 3) (995/1000 : ℚ) (1/1000 : ℚ) false "Block17_9_Branch_0_Conv2d_1x1_BatchNorm" branch_0
  let (g, branch_0) := Activation g "relu" "Block17_9_Branch_0_Conv2d_1x1_Activation" branch_0
  let (g, branch_1) := Conv2D g 128 (1, 1) 1 Padding.same false "Block17_9_Branch_9_Conv2d_0a_1x1" x
  let (g, branch_1) := BatchNormalization g (some 3) (995/1000 : ℚ) (1/1000 : ℚ) false "Block17_9_Branch_9_Conv2d_0a_1x1_BatchNorm" branch_1
  let (g, branch_1) := Activation g "relu" "Block17_9_Branch_9_Conv2d_0a_1x1_Activation" branch_1
  let (g, branch_1) := Conv2D g 128 (1, 7) 1 Padding.same false "Block17_9_Branch_9_Conv2d_0b_1x7" branch_1
  let (g, branch_1) := BatchNormalization g (some 3) (995/1000 : ℚ) (1/1000 : ℚ) false "Block17_9_Branch_9_Conv2d_0b_1x7_BatchNorm" branch_1
  let (g, branch_1) := Activation g "relu" "Block17_9_Branch_9_Conv2d_0b_1x7_Activation" branch_1
  let (g, branch_1) := Conv2D g 128 (7, 1) 1 Padding.same false "Block17_9_Branch_9_Conv2d_0c_7x1" branch_1
  let (g, branch_1) := BatchNormalization g (some 3) (995/1000 : ℚ) (1/1000 : ℚ) false "Block17_9_Branch_9_Conv2d_0c_7x1_BatchNorm" branch_1
  let (g, branch_1) := Activation g "relu" "Block17_9_Branch_9_Conv2d_0c_7x1_Activation" branch_1
  let branches := [branch_0, branch_1]
  let (g, mixed) := Concatenate g 3 "Block17_9_Concatenate" branches
  let (g, up) := Conv2D g 896 (1, 1) 1 Padding.same true "Block17_9_Conv2d_1x1" mixed
  let (g, up) := Lambda g (1/10 : ℚ) up
  addMerge g [x, up]

/-- Segment 11 of 15 of the `_inception_res_netV2` layer sequence, split only so that elaboration recursion stays shallow; concatenated in order, the segments are the statement-by-statement transliteration of the source body. -/
def seg11 (g : GraphBuilder) (x : SymT) : GraphBuilder × SymT :=
  let (g, x) := Activation g "relu" "Block17_9_Activation" x
  let (g, branch_0) := Conv2D g 128 (1, 1) 1 Padding.same false "Block17_10_Branch_0_Conv2d_1x1" x
  let (g, branch_0) := BatchNormalization g (some 3) (995/1000 : ℚ) (1/1000 : ℚ) false "Block17_10_Branch_0_Conv2d_1x1_BatchNorm" branch_0
  let (g, branch_0) := Activation g "relu" "Block17_10_Branch_0_Conv2d_1x1_Activation" branch_0
  let (g, branch_1) := Conv2D g 128 (1, 1) 1 Padding.same false "Block17_10_Branch_10_Conv2d_0a_1x1" x
  let (g, branch_1) := BatchNormalization g (some 3) (995/1000 : ℚ) (1/1000 : ℚ) false "Block17_10_Branch_10_Conv2d_0a_1x1_BatchNorm" branch_1
  let (g, branch_1) := Activation g "relu" "Block17_10_Branch_10_Conv2d_0a_1x1_Activation" branch_1
  let (g, branch_1) := Conv2D g 128 (1, 7) 1 Padding.same false "Block17_10_Branch_10_Conv2d_0b_1x7" branch_1
  let (g, branch_1) := BatchNormalization g (some 3) (995/1000 : ℚ) (1/1000 : ℚ) false "Block17_10_Branch_10_Conv2d_0b_1x7_BatchNorm" branch_1
  let (g, branch_1) := Activation g "relu" "Block17_10_Branch_10_Conv2d_0b_1x7_Activation" branch_1
  let (g, branch_1) := Conv2D g 128 (7, 1) 1 Padding.same false "Block17_10_Branch_10_Conv2d_0c_7x1" branch_1
  let (g, branch_1) := BatchNormalization g (some 3) (995/1000 : ℚ) (1/1000 : ℚ) false "Block17_10_Branch_10_Conv2d_0c_7x1_BatchNorm" branch_1
  let (g, branch_1) := Activation g "relu" "Block17_10_Branch_10_Conv2d_0c_7x1_Activation" branch_1
  let branches := [branch_0, branch_1]
  let (g, mixed) := Concatenate g 3 "Block17_10_Concatenate" branches
  let (g, up) := Conv2D g 896 (1, 1) 1 Padding.same true "Block17_10_Conv2d_1x1" mixed
  let (g, up) := Lambda g (1/10 : ℚ) up
  let (g, x) := addMerge g [x, up]
  let (g, x) := Activation g "relu" "Block17_10_Activation" x
  let (g, branch_0) := Conv2D g 256 (1, 1) 1 Padding.same false "Mixed_7a_Branch_0_Conv2d_0a_1x1" x
  let (g, branch_0) := BatchNormalization g (some 3) (995/1000 : ℚ) (1/1000 : ℚ) false "Mixed_7a_Branch_0_Conv2d_0a_1x1_BatchNorm" branch_0
  let (g, branch_0) := Activation g "relu" "Mixed_7a_Branch_0_Conv2d_0a_1x1_Activation" branch_0
  let (g, branch_0) := Conv2D g 384 (3, 3) 2 Padding.valid false "Mixed_7a_Branch_0_Conv2d_1a_3x3" branch_0
  let (g, branch_0) := BatchNormalization g (some 3) (995/1000 : ℚ) (1/1000 : ℚ) false "Mixed_7a_Branch_0_Conv2d_1a_3x3_BatchNorm" branch_0
  let (g, branch_0) := Activation g "relu" "Mixed_7a_Branch_0_Conv2d_1a_3x3_Activation" branch_0
  let (g, branch_1) := Conv2D g 256 (1, 1) 1 Padding.same false "Mixed_7a_Branch_1_Conv2d_0a_1x1" x
  let (g, branch_1) := BatchNormalization g (some 3) (995/1000 : ℚ) (1/1000 : ℚ) false "Mixed_7a_Branch_1_Conv2d_0a_1x1_BatchNorm" branch_1
  let (g, branch_1) := Activation g "relu" "Mixed_7a_Branch_1_Conv2d_0a_1x1_Activation" branch_1
  let (g, branch_1) := Conv2D g 256 (3, 3) 2 Padding.valid false "Mixed_7a_Branch_1_Conv2d_1a_3x3" branch_1
  let (g, branch_1) := BatchNormalization g (some 3) (995/1000 : ℚ) (1/1000 : ℚ) false "Mixed_7a_Branch_1_Conv2d_1a_3x3_BatchNorm" branch_1
  let (g, branch_1) := Activation g "relu" "Mixed_7a_Branch_1_Conv2d_1a_3x3_Activation" branch_1
  let (g, branch_2) := Conv2D g 256 (1, 1) 1 Padding.same false "Mixed_7a_Branch_2_Conv2d_0a_1x1" x
  let (g, branch_2) := BatchNormalization g (some 3) (995/1000 : ℚ) (1/1000 : ℚ) false "Mixed_7a_Branch_2_Conv2d_0a_1x1_BatchNorm" branch_2
  let (g, branch_2) := Activation g "relu" "Mixed_7a_Branch_2_Conv2d_0a_1x1_Activation" branch_2
  let (g, branch_2) := Conv2D g 256 (3, 3) 1 Padding.same false "Mixed_7a_Branch_2_Conv2d_0b_3x3" branch_2
  let (g, branch_2) := BatchNormalization g (some 3) (995/1000 : ℚ) (1/1000 : ℚ) false "Mixed_7a_Branch_2_Conv2d_0b_3x3_BatchNorm" branch_2
  let (g, branch_2) := Activation g "relu" "Mixed_7a_Branch_2_Conv2d_0b_3x3_Activation" branch_2
  let (g, branch_2) := Conv2D g 256 (3, 3) 2 Padding.valid false "Mixed_7a_Branch_2_Conv2d_1a_3x3" branch_2
  let (g, branch_2) := BatchNormalization g (some 3) (995/1000 : ℚ) (1/1000 : ℚ) false "Mixed_7a_Branch_2_Conv2d_1a_3x3_BatchNorm" branch_2
  let (g, branch_2) := Activation g "relu" "Mixed_7a_Branch_2_Conv2d_1a_3x3_Activation" branch_2
  let (g, branch_pool) := MaxPooling2D g 3 2 Padding.valid "Mixed_7a_Branch_3_MaxPool_1a_3x3" x
  let branches := [branch_0, branch_1, branch_2, branch_pool]
  Concatenate g 3 "Mixed_7a" branches

/-- Segment 12 of 15 of the `_inception_res_netV2` layer sequence, split only so that elaboration recursion stays shallow; concatenated in order, the segments are the statement-by-statement transliteration of the source body. -/
def seg12 (g : GraphBuilder) (x : SymT) : GraphBuilder × SymT :=
  let (g, branch_0) := Conv2D g 192 (1, 1) 1 Padding.same false "Block8_1_Branch_0_Conv2d_1x1" x
  let (g, branch_0) := BatchNormalization g (some 3) (995/1000 : ℚ) (1/1000 : ℚ) false "Block8_1_Branch_0_Conv2d_1x1_BatchNorm" branch_0
  let (g, branch_0) := Activation g "relu" "Block8_1_Branch_0_Conv2d_1x1_Activation" branch_0
  let (g, branch_1) := Conv2D g 192 (1, 1) 1 Padding.same false "Block8_1_Branch_1_Conv2d_0a_1x1" x
  let (g, branch_1) := BatchNormalization g (some 3) (995/1000 : ℚ) (1/1000 : ℚ) false "Block8_1_Branch_1_Conv2d_0a_1x1_BatchNorm" branch_1
  let (g, branch_1) := Activation g "relu" "Block8_1_Branch_1_Conv2d_0a_1x1_Activation" branch_1
  let (g, branch_1) := Conv2D g 192 (1, 3) 1 Padding.same false "Block8_1_Branch_1_Conv2d_0b_1x3" branch_1
  let (g, branch_1) := BatchNormalization g (some 3) (995/1000 : ℚ) (1/1000 : ℚ) false "Block8_1_Branch_1_Conv2d_0b_1x3_BatchNorm" branch_1
  let (g, branch_1) := Activation g "relu" "Block8_1_Branch_1_Conv2d_0b_1x3_Activation" branch_1
  let (g, branch_1) := Conv2D g 192 (3, 1) 1 Padding.same false "Block8_1_Branch_1_Conv2d_0c_3x1" branch_1
  let (g, branch_1) := BatchNormalization g (some 3) (995/1000 : ℚ) (1/1000 : ℚ) false "Block8_1_Branch_1_Conv2d_0c_3x1_BatchNorm" branch_1
  let (g, branch_1) := Activation g "relu" "Block8_1_Branch_1_Conv2d_0c_3x1_Activation" branch_1
  let branches := [branch_0, branch_1]
  let (g, mixed) := Concatenate g 3 "Block8_1_Concatenate" branches
  let (g, up) := Conv2D g 1792 (1, 1) 1 Padding.same true "Block8_1_Conv2d_1x1" mixed
  let (g, up) := Lambda g (2/10 : ℚ) up
  let (g, x) := addMerge g [x, up]
  let (g, x) := Activation g "relu" "Block8_1_Activation" x
  let (g, branch_0) := Conv2D g 192 (1, 1) 1 Padding.same false "Block8_2_Branch_0_Conv2d_1x1" x
  let (g, branch_0) := BatchNormalization g (some 3) (995/1000 : ℚ) (1/1000 : ℚ) false "Block8_2_Branch_0_Conv2d_1x1_BatchNorm" branch_0
  let (g, branch_0) := Activation g "relu" "Block8_2_Branch_0_Conv2d_1x1_Activation" branch_0
  let (g, branch_1) := Conv2D g 192 (1, 1) 1 Padding.same false "Block8_2_Branch_2_Conv2d_0a_1x1" x
  let (g, branch_1) := BatchNormalization g (some 3) (995/1000 : ℚ) (1/1000 : ℚ) false "Block8_2_Branch_2_Conv2d_0a_1x1_BatchNorm" branch_1
  let (g, branch_1) := Activation g "relu" "Block8_2_Branch_2_Conv2d_0a_1x1_Activation" branch_1
  let (g, branch_1) := Conv2D g 192 (1, 3) 1 Padding.same false "Block8_2_Branch_2_Conv2d_0b_1x3" branch_1
  let (g, branch_1) := BatchNormalization g (some 3) (995/1000 : ℚ) (1/1000 : ℚ) false "Block8_2_Branch_2_Conv2d_0b_1x3_BatchNorm" branch_1
  let (g, branch_1) := Activation g "relu" "Block8_2_Branch_2_Conv2d_0b_1x3_Activation" branch_1
  let (g, branch_1) := Conv2D g 192 (3, 1) 1 Padding.same false "Block8_2_Branch_2_Conv2d_0c_3x1" branch_1
  let (g, branch_1) := BatchNormalization g (some 3) (995/1000 : ℚ) (1/1000 : ℚ) false "Block8_2_Branch_2_Conv2d_0c_3x1_BatchNorm" branch_1
  let (g, branch_1) := Activation g "relu" "Block8_2_Branch_2_Conv2d_0c_3x1_Activation" branch_1
  let branches := [branch_0, branch_1]
  let (g, mixed) := Concatenate g 3 "Block8_2_Concatenate" branches
  let (g, up) := Conv2D g 1792 (1, 1) 1 Padding.same true "Block8_2_Conv2d_1x1" mixed
  let (g, up) := Lambda g (2/10 : ℚ) up
  addMerge g [x, up]

/-- Segment 13 of 15 of the `_inception_res_netV2` layer sequence, split only so that elaboration recursion stays shallow; concatenated in order, the segments are the statement-by-statement transliteration of the source body. -/
def seg13 (g : GraphBuilder) (x : SymT) : GraphBuilder × SymT :=
  let (g, x) := Activation g "relu" "Block8_2_Activation" x
  let (g, branch_0) := Conv2D g 192 (1, 1) 1 Padding.same false "Block8_3_Branch_0_Conv2d_1x1" x
  let (g, branch_0) := BatchNormalization g (some 3) (995/1000 : ℚ) (1/1000 : ℚ) false "Block8_3_Branch_0_Conv2d_1x1_BatchNorm" branch_0
  let (g, branch_0) := Activation g "relu" "Block8_3_Branch_0_Conv2d_1x1_Activation" branch_0
  let (g, branch_1) := Conv2D g 192 (1, 1) 1 Padding.same false "Block8_3_Branch_3_Conv2d_0a_1x1" x
  let (g, branch_1) := BatchNormalization g (some 3) (995/1000 : ℚ) (1/1000 : ℚ) false "Block8_3_Branch_3_Conv2d_0a_1x1_BatchNorm" branch_1
  let (g, branch_1) := Activation g "relu" "Block8_3_Branch_3_Conv2d_0a_1x1_Activation" branch_1
  let (g, branch_1) := Conv2D g 192 (1, 3) 1 Padding.same false "Block8_3_Branch_3_Conv2d_0b_1x3" branch_1
  let (g, branch_1) := BatchNormalization g (some 3) (995/1000 : ℚ) (1/1000 : ℚ) false "Block8_3_Branch_3_Conv2d_0b_1x3_BatchNorm" branch_1
  let (g, branch_1) := Activation g "relu" "Block8_3_Branch_3_Conv2d_0b_1x3_Activation" branch_1
  let (g, branch_1) := Conv2D g 192 (3, 1) 1 Padding.same false "Block8_3_Branch_3_Conv2d_0c_3x1" branch_1
  let (g, branch_1) := BatchNormalization g (some 3) (995/1000 : ℚ) (1/1000 : ℚ) false "Block8_3_Branch_3_Conv2d_0c_3x1_BatchNorm" branch_1
  let (g, branch_1) := Activation g "relu" "Block8_3_Branch_3_Conv2d_0c_3x1_Activation" branch_1
  let branches := [branch_0, branch_1]
  let (g, mixed) := Concatenate g 3 "Block8_3_Concatenate" branches
  let (g, up) := Conv2D g 1792 (1, 1) 1 Padding.same true "Block8_3_Conv2d_1x1" mixed
  let (g, up) := Lambda g (2/10 : ℚ) up
  let (g, x) := addMerge g [x, up]
  let (g, x) := Activation g "relu" "Block8_3_Activation" x
  let (g, branch_0) := Conv2D g 192 (1, 1) 1 Padding.same false "Block8_4_Branch_0_Conv2d_1x1" x
  let (g, branch_0) := BatchNormalization g (some 3) (995/1000 : ℚ) (1/1000 : ℚ) false "Block8_4_Branch_0_Conv2d_1x1_BatchNorm" branch_0
  let (g, branch_0) := Activation g "relu" "Block8_4_Branch_0_Conv2d_1x1_Activation" branch_0
  let (g, branch_1) := Conv2D g 192 (1, 1) 1 Padding.same false "Block8_4_Branch_4_Conv2d_0a_1x1" x
  let (g, branch_1) := BatchNormalization g (some 3) (995/1000 : ℚ) (1/1000 : ℚ) false "Block8_4_Branch_4_Conv2d_0a_1x1_BatchNorm" branch_1
  let (g, branch_1) := Activation g "relu" "Block8_4_Branch_4_Conv2d_0a_1x1_Activation" branch_1
  let (g, branch_1) := Conv2D g 192 (1, 3) 1 Padding.same false "Block8_4_Branch_4_Conv2d_0b_1x3" branch_1
  let (g, branch_1) := BatchNormalization g (some 3) (995/1000 : ℚ) (1/1000 : ℚ) false "Block8_4_Branch_4_Conv2d_0b_1x3_BatchNorm" branch_1
  let (g, branch_1) := Activation g "relu" "Block8_4_Branch_4_Conv2d_0b_1x3_Activation" branch_1
  let (g, branch_1) := Conv2D g 192 (3, 1) 1 Padding.same false "Block8_4_Branch_4_Conv2d_0c_3x1" branch_1
  let (g, branch_1) := BatchNormalization g (some 3) (995/1000 : ℚ) (1/1000 : ℚ) false "Block8_4_Branch_4_Conv2d_0c_3x1_BatchNorm" branch_1
  let (g, branch_1) := Activation g "relu" "Block8_4_Branch_4_Conv2d_0c_3x1_Activation" branch_1
  let branches := [branch_0, branch_1]
  let (g, mixed) := Concatenate g 3 "Block8_4_Concatenate" branches
  let (g, up) := Conv2D g 1792 (1, 1) 1 Padding.same true "Block8_4_Conv2d_1x1" mixed
  let (g, up) := Lambda g (2/10 : ℚ) up
  addMerge g [x, up]

/-- Segment 14 of 15 of the `_inception_res_netV2` layer sequence, split only so that elaboration recursion stays shallow; concatenated in order, the segments are the statement-by-statement transliteration of the source body. -/
def seg14 (g : GraphBuilder) (x : SymT) : GraphBuilder × SymT :=
  let (g, x) := Activation g "relu" "Block8_4_Activation" x
  let (g, branch_0) := Conv2D g 192 (1, 1) 1 Padding.same false "Block8_5_Branch_0_Conv2d_1x1" x
  let (g, branch_0) := BatchNormalization g (some 3) (995/1000 : ℚ) (1/1000 : ℚ) false "Block8_5_Branch_0_Conv2d_1x1_BatchNorm" branch_0
  let (g, branch_0) := Activation g "relu" "Block8_5_Branch_0_Conv2d_1x1_Activation" branch_0
  let (g, branch_1) := Conv2D g 192 (1, 1) 1 Padding.same false "Block8_5_Branch_5_Conv2d_0a_1x1" x
  let (g, branch_1) := BatchNormalization g (some 3) (995/1000 : ℚ) (1/1000 : ℚ) false "Block8_5_Branch_5_Conv2d_0a_1x1_BatchNorm" branch_1
  let (g, branch_1) := Activation g "relu" "Block8_5_Branch_5_Conv2d_0a_1x1_Activation" branch_1
  let (g, branch_1) := Conv2D g 192 (1, 3) 1 Padding.same false "Block8_5_Branch_5_Conv2d_0b_1x3" branch_1
  let (g, branch_1) := BatchNormalization g (some 3) (995/1000 : ℚ) (1/1000 : ℚ) false "Block8_5_Branch_5_Conv2d_0b_1x3_BatchNorm" branch_1
  let (g, branch_1) := Activation g "relu" "Block8_5_Branch_5_Conv2d_0b_1x3_Activation" branch_1
  let (g, branch_1) := Conv2D g 192 (3, 1) 1 Padding.same false "Block8_5_Branch_5_Conv2d_0c_3x1" branch_1
  let (g, branch_1) := BatchNormalization g (some 3) (995/1000 : ℚ) (1/1000 : ℚ) false "Block8_5_Branch_5_Conv2d_0c_3x1_BatchNorm" branch_1
  let (g, branch_1) := Activation g "relu" "Block8_5_Branch_5_Conv2d_0c_3x1_Activation" branch_1
  let branches := [branch_0, branch_1]
  let (g, mixed) := Concatenate g 3 "Block8_5_Concatenate" branches
  let (g, up) := Conv2D g 1792 (1, 1) 1 Padding.same true "Block8_5_Conv2d_1x1" mixed
  let (g, up) := Lambda g (2/10 : ℚ) up
  let (g, x) := addMerge g [x, up]
  let (g, x) := Activation g "relu" "Block8_5_Activation" x
  let (g, branch_0) := Conv2D g 192 (1, 1) 1 Padding.same false "Block8_6_Branch_0_Conv2d_1x1" x
  let (g, branch_0) := BatchNormalization g (some 3) (995/1000 : ℚ) (1/1000 : ℚ) false "Block8_6_Branch_0_Conv2d_1x1_BatchNorm" branch_0
  let (g, branch_0) := Activation g "relu" "Block8_6_Branch_0_Conv2d_1x1_Activation" branch_0
  let (g, branch_1) := Conv2D g 192 (1, 1) 1 Padding.same false "Block8_6_Branch_1_Conv2d_0a_1x1" x
  let (g, branch_1) := BatchNormalization g (some 3) (995/1000 : ℚ) (1/1000 : ℚ) false "Block8_6_Branch_1_Conv2d_0a_1x1_BatchNorm" branch_1
  let (g, branch_1) := Activation g "relu" "Block8_6_Branch_1_Conv2d_0a_1x1_Activation" branch_1
  let (g, branch_1) := Conv2D g 192 (1, 3) 1 Padding.same false "Block8_6_Branch_1_Conv2d_0b_1x3" branch_1
  let (g, branch_1) := BatchNormalization g (some 3) (995/1000 : ℚ) (1/1000 : ℚ) false "Block8_6_Branch_1_Conv2d_0b_1x3_BatchNorm" branch_1
  let (g, branch_1) := Activation g "relu" "Block8_6_Branch_1_Conv2d_0b_1x3_Activation" branch_1
  let (g, branch_1) := Conv2D g 192 (3, 1) 1 Padding.same false "Block8_6_Branch_1_Conv2d_0c_3x1" branch_1
  let (g, branch_1) := BatchNormalization g (some 3) (995/1000 : ℚ) (1/1000 : ℚ) false "Block8_6_Branch_1_Conv2d_0c_3x1_BatchNorm" branch_1
  let (g, branch_1) := Activation g "relu" "Block8_6_Branch_1_Conv2d_0c_3x1_Activation" branch_1
  let branches := [branch_0, branch_1]
  let (g, mixed) := Concatenate g 3 "Block8_6_Concatenate" branches
  let (g, up) := Conv2D g 1792 (1, 1) 1 Padding.same true "Block8_6_Conv2d_1x1" mixed
  let (g, up) := Lambda g (1 : ℚ) up
  addMerge g [x, up]

/-- Segment 15 of 15 of the `_inception_res_netV2` layer sequence, split only so that elaboration recursion stays shallow; concatenated in order, the segments are the statement-by-statement transliteration of the source body. -/
def seg15 (dimension : Nat) (g : GraphBuilder) (x : SymT) : GraphBuilder × SymT :=
  let (g, x) := GlobalAveragePooling2D g "AvgPool" x
  let (g, x) := Dropout g ((10/10 : ℚ) - (8/10 : ℚ)) "Dropout" x
  let (g, x) := Dense g dimension false "Bottleneck" x
  BatchNormalization g none (995/1000 : ℚ) (1/1000 : ℚ) false "Bottleneck_BatchNorm" x

set_option maxRecDepth 2048 in
/-- Source function `FaceNetBase._inception_res_netV2(dimension)`: the Inception-ResNet-v1 graph builder, transliterated from the source (the segments `seg1`..`seg15` hold the layer sequence).  The Python parameter has default value 128; the Lean embedding takes the dimension explicitly and call sites pass 128 where the source relies on the default. -/
def _inception_res_netV2 (dimension : Nat) : Model :=
  let g : GraphBuilder := { layersRev := [] }
  let (g, inputs) := Input g [160, 160, 3]
  let (g, x) := seg1 g inputs
  let (g, x) := seg2 g x
  let (g, x) := seg3 g x
  let (g, x) := seg4 g x
  let (g, x) := seg5 g x
  let (g, x) := seg6 g x
  let (g, x) := seg7 g x
  let (g, x) := seg8 g x
  let (g, x) := seg9 g x
  let (g, x) := seg10 g x
  let (g, x) := seg11 g x
  let (g, x) := seg12 g x
  let (g, x) := seg13 g x
  let (g, x) := seg14 g x
  let (g, x) := seg15 dimension g x
  { inputShape := inputs, outShape := x, name := "inception_resnet_v1", layers := g.layersRev.reverse }

end FaceNetBase

namespace C

/-- Modelled from the spec: the constants module
(`src/services/face_analyze/commons/constants.py`, imported as `C`) is not
among the provided sources.  Per the spec the 128-dimensional variant's weights
are fetched from a fixed URL; any fixed string models it. -/
def DOWNLOAD_URL_FACENET : String := "https://fixed.example/facenet_weights.h5"

/-- Modelled from the spec: the fixed URL of the 512-dimensional variant's
weights. -/
def DOWNLOAD_URL_FACENET512 : String := "https://fixed.example/facenet512_weights.h5"

/-- Modelled from the spec: the fixed filename (relative to the cache root)
under which the 128-dimensional variant's weights are cached. -/
def PATH_WEIGHTS_FACENET : String := "/weights/facenet_weights.h5"

/-- Modelled from the spec: the fixed filename (relative to the cache root)
under which the 512-dimensional variant's weights are cached. -/
def PATH_WEIGHTS_FACENET512 : String := "/weights/facenet512_weights.h5"

end C

/-- Modelled from the spec: `get_deepface_home`, the home-directory/path
configuration helper (an out-of-scope external collaborator per the spec),
returns the fixed local cache root. -/
def get_deepface_home : String := "/home/user/.deepface"

/-- Filesystem state, as the list of paths at which a file currently exists. -/
abbrev FS := List String

/-- Embedding of `os.path.isfile`: whether a file exists at the path. -/
def isfile (fs : FS) (p : String) : Bool := fs.contains p

/-- Externally visible effects of the weight-loading code, in the order they
are performed: a network download writing to `output`, and loading the weights
file at `output` into the constructed graph. -/
inductive Event
| download (url output : String)
| load_weights (output : String)
deriving DecidableEq, Repr

/-- Modelled from the spec: the external `gdown.download` utility (the "HTTP(S)
download utility" collaborator).  On success it performs exactly one network
download and leaves the downloaded file at `output`; its failures are covered
separately by the fallible embedding below. -/
def gdown_download (url output : String) (fs : FS) : FS × List Event :=
  (output :: fs, [Event.download url output])

namespace BaseModel

/-- Source function `BaseModel._download(url, output)`: if no file exists at
`output`, invoke `gdown.download(url, output)`; otherwise do nothing.  Returns
the resulting filesystem and the effect trace. -/
def _download (url output : String) (fs : FS) : FS × List Event :=
  if isfile fs output then (fs, [])
  else gdown_download url output fs

/-- Fallible embedding of `BaseModel._download` for the error-propagation
claim: the external `gdown.download` call is an oracle that may fail with a
framework-native error `ε`.  The source wraps the call in no `try`/`except`,
so an oracle error is returned to the caller as-is. -/
def _downloadE {ε : Type} (gdown : String → String → Except ε Unit)
    (url output : String) (fs : FS) : Except ε FS :=
  if isfile fs output then Except.ok fs
  else
    match gdown url output with
    | Except.ok _ => Except.ok (output :: fs)
    | Except.error e => Except.error e

end BaseModel

namespace FaceNetBase

/-- Source function `FaceNetBase.load_model(url)`: dispatches on
`self.__class__.__name__` — the 128-dimensional graph with the caller's `url`
and the FaceNet weights path for class `FaceNet128dClient`, otherwise the
512-dimensional graph with `url` reassigned to the fixed FaceNet512 URL and the
FaceNet512 weights path — then calls `self._download(url, output)` followed by
`model.load_weights(output)` and returns the model.  The Python `url` parameter
defaults to `C.DOWNLOAD_URL_FACENET`; the Lean embedding takes `url`
explicitly, and the class name stands in for `self`.  Returns the model, the
filesystem after `_download`, and the effect trace in execution order. -/
def load_model (className url : String) (fs : FS) : Model × FS × List Event :=
  let (model, url, output) :=
    if className == "FaceNet128dClient" then
      (_inception_res_netV2 128, url, get_deepface_home ++ C.PATH_WEIGHTS_FACENET)
    else
      (_inception_res_netV2 512, C.DOWNLOAD_URL_FACENET512,
       get_deepface_home ++ C.PATH_WEIGHTS_FACENET512)
  let (fs2, ev) := BaseModel._download url output fs
  (model, fs2, ev ++ [Event.load_weights output])

/-- Fallible embedding of `FaceNetBase.load_model` for the error-propagation
claim: the two external calls that can fail — the `gdown.download` network
download and `model.load_weights` (filesystem errors, weight shape mismatch) —
are oracles returning `Except ε`.  The module contains no `try`/`except`, no
error translation and no retry, so the straight-line control flow below is its
faithful embedding: the first failing call's error is the result. -/
def load_modelE {ε : Type} (gdown : String → String → Except ε Unit)
    (loadWeights : String → Except ε Unit)
    (className url : String) (fs : FS) : Except ε (Model × FS) :=
  let (model, url, output) :=
    if className == "FaceNet128dClient" then
      (_inception_res_netV2 128, url, get_deepface_home ++ C.PATH_WEIGHTS_FACENET)
    else
      (_inception_res_netV2 512, C.DOWNLOAD_URL_FACENET512,
       get_deepface_home ++ C.PATH_WEIGHTS_FACENET512)
  match BaseModel._downloadE gdown url output fs with
  | Except.error e => Except.error e
  | Except.ok fs2 =>
    match loadWeights output with
    | Except.error e => Except.error e
    | Except.ok _ => Except.ok (model, fs2)

/-- Characterisation (for the theorem statements) of the local weights path
`load_model` resolves for a given class name: the cache root joined with the
variant's fixed filename. -/
def outputPath (className : String) : String :=
  if className == "FaceNet128dClient" then get_deepface_home ++ C.PATH_WEIGHTS_FACENET
  else get_deepface_home ++ C.PATH_WEIGHTS_FACENET512

/-- Characterisation (for the theorem statements) of the download URL
`load_model` resolves: the caller's `url` for the 128-dimensional class, the
fixed FaceNet512 URL otherwise. -/
def resolvedUrl (className url : String) : String :=
  if className == "FaceNet128dClient" then url else C.DOWNLOAD_URL_FACENET512

end FaceNetBase

/-- Name of a layer call, when the source passes one (the `Lambda` scaling
layers and the functional `add` merges are unnamed in the source). -/
def layerName : LayerCall → Option String
| LayerCall.conv2d _ _ _ _ _ n => some n
| LayerCall.batchNorm _ _ _ _ n => some n
| LayerCall.activation _ n => some n
| LayerCall.maxPool _ _ _ n => some n
| LayerCall.concat _ n => some n
| LayerCall.globalAvgPool n => some n
| LayerCall.dropout _ n => some n
| LayerCall.dense _ _ n => some n
| _ => none

/-- All `Dense` layer calls of a model as (name, units, use_bias) triples, in
graph order. -/
def denseLayers (m : Model) : List (String × Nat × Bool) :=
  m.layers.filterMap fun l =>
    match l with
    | LayerCall.dense u b n => some (n, u, b)
    | _ => none

/-- Each residual scaling `Lambda` layer of a layer sequence, paired with the
name of the layer call issued immediately before it (which in this graph is
always the enclosing block's `..._Conv2d_1x1` convolution), in graph order. -/
def scalesWithPrev (ls : List LayerCall) : List (Option String × ℚ) :=
  (ls.zip ls.tail).filterMap fun p =>
    match p.2 with
    | LayerCall.lambdaScale s => some (layerName p.1, s)
    | _ => none

end FeelFlow

namespace FeelFlow

open FaceNetBase

/-! Shared helper lemmas about the embedded operations. -/

set_option maxRecDepth 100000 in
/-- Helper: the output shape of the built graph is the singleton of the
requested dimension, for every dimension. -/
theorem aux_outShape (d : Nat) : (_inception_res_netV2 d).outShape = [d] := rfl

/-- Helper: `load_model` unfolded — it builds the variant selected by the class
name, runs `_download` on the resolved URL and path, and then loads the
weights. -/
theorem aux_load_model_eq (className url : String) (fs : FS) :
    load_model className url fs =
      (_inception_res_netV2 (if className == "FaceNet128dClient" then 128 else 512),
       (BaseModel._download (resolvedUrl className url) (outputPath className) fs).1,
       (BaseModel._download (resolvedUrl className url) (outputPath className) fs).2
         ++ [Event.load_weights (outputPath className)]) := by
  cases hc : className == "FaceNet128dClient" <;>
    simp only [load_model, resolvedUrl, outputPath, hc, if_true, if_false, Bool.false_eq_true]

/-- Helper: `_download` with the file present does nothing. -/
theorem aux_download_present (url output : String) (fs : FS)
    (h : isfile fs output = true) :
    BaseModel._download url output fs = (fs, []) := by
  simp [BaseModel._download, h]

/-- Helper: `_download` with the file absent performs exactly one download,
which leaves the file at `output`. -/
theorem aux_download_absent (url output : String) (fs : FS)
    (h : isfile fs output = false) :
    BaseModel._download url output fs = (output :: fs, [Event.download url output]) := by
  simp [BaseModel._download, h, gdown_download]

/-- Helper: an error of the fallible `_downloadE` is verbatim an error returned
by the `gdown` oracle. -/
theorem aux_downloadE_error {ε : Type} (gdown : String → String → Except ε Unit)
    (url output : String) (fs : FS) (e : ε)
    (h : BaseModel._downloadE gdown url output fs = Except.error e) :
    gdown url output = Except.error e := by
  unfold BaseModel._downloadE at h
  cases hf : isfile fs output
  · rw [hf] at h
    simp only [Bool.false_eq_true, if_false] at h
    cases hg : gdown url output with
    | error e2 => rw [hg] at h; simp only [Except.error.injEq] at h; exact congrArg Except.error h
    | ok u => rw [hg] at h; simp at h
  · rw [hf] at h; simp at h

/-! Theorems settling the claims. -/

set_option maxRecDepth 100000 in
/-- C1: for every dimension in {128, 512}, the graph built by
`FaceNetBase._inception_res_netV2(dimension)` ends in a final embedding layer
of length exactly `dimension`: its only Dense layer call is the terminal
`"Bottleneck"` layer with `dimension` units (and no bias), so the model's
output vector length equals the requested dimensionality. -/
theorem bottleneck_units_match_dimension :
    (denseLayers (_inception_res_netV2 128) = [("Bottleneck", 128, false)]
      ∧ (_inception_res_netV2 128).outShape = [128])
    ∧ (denseLayers (_inception_res_netV2 512) = [("Bottleneck", 512, false)]
      ∧ (_inception_res_netV2 512).outShape = [512]) :=
  ⟨⟨rfl, rfl⟩, ⟨rfl, rfl⟩⟩

set_option maxRecDepth 100000 in
/-- C2, counterexample: the embedding-dimension selector does not fully
determine the download URL for the 128-dimensional variant.  A call on class
`FaceNet128dClient` with a caller-supplied `url` downloads from that `url`,
which differs from the fixed FaceNet weights URL — `load_model` honors the
caller's argument there instead of overriding it. -/
theorem load_model_custom_url_counterexample :
    (load_model "FaceNet128dClient" "https://example.org/custom_weights.h5" []).2.2
      = [Event.download "https://example.org/custom_weights.h5"
           (outputPath "FaceNet128dClient"),
         Event.load_weights (outputPath "FaceNet128dClient")]
    ∧ "https://example.org/custom_weights.h5" ≠ C.DOWNLOAD_URL_FACENET :=
  ⟨rfl, by decide⟩

set_option maxRecDepth 100000 in
/-- C2, amended: the selector (class name) fully determines the architecture
variant and the local weights path; it fully determines the download URL only
for the non-128 classes, where `load_model` overwrites `url` with the fixed
FaceNet512 URL — for class `FaceNet128dClient` the URL is the caller-supplied
`url` argument, whose Python default is the FaceNet weights URL. -/
theorem load_model_selector_resolution (className url : String) (fs : FS)
    (h : isfile fs (outputPath className) = false) :
    (load_model className url fs).1.outShape
        = (if className == "FaceNet128dClient" then [128] else [512])
    ∧ (load_model className url fs).2.2
        = [Event.download (resolvedUrl className url) (outputPath className),
           Event.load_weights (outputPath className)] := by
  rw [aux_load_model_eq, aux_download_absent _ _ _ h]
  refine ⟨?_, rfl⟩
  cases hc : className == "FaceNet128dClient" <;>
    simp only [hc, if_true, if_false, Bool.false_eq_true] <;> exact aux_outShape _

set_option maxRecDepth 100000 in
/-- Witness for the amended C2, at the Python default argument: for class
`FaceNet128dClient` with `url = C.DOWNLOAD_URL_FACENET` and an empty
filesystem, the 128-dimensional graph is built and the FaceNet URL / path pair
is used. -/
theorem load_model_selector_resolution_witness :
    ((load_model "FaceNet128dClient" C.DOWNLOAD_URL_FACENET []).1.outShape
        = (if "FaceNet128dClient" == "FaceNet128dClient" then [128] else [512]))
    ∧ (load_model "FaceNet128dClient" C.DOWNLOAD_URL_FACENET []).2.2
        = [Event.download (resolvedUrl "FaceNet128dClient" C.DOWNLOAD_URL_FACENET)
             (outputPath "FaceNet128dClient"),
           Event.load_weights (outputPath "FaceNet128dClient")] :=
  load_model_selector_resolution "FaceNet128dClient" C.DOWNLOAD_URL_FACENET [] rfl

/-- C3: if a file already exists at the output path, `_download` performs no
network call (no download event, so the download function is never invoked, and
no validation of the existing file happens — the source has no validation call
at all) and leaves the filesystem exactly unchanged. -/
theorem download_no_network_when_present (url output : String) (fs : FS)
    (h : isfile fs output = true) :
    BaseModel._download url output fs = (fs, []) := by
  simp [BaseModel._download, h]

/-- Witness for C3 at a concrete present file. -/
theorem download_no_network_when_present_witness :
    BaseModel._download "https://u.example" "w.h5" ["w.h5"] = (["w.h5"], []) :=
  download_no_network_when_present "https://u.example" "w.h5" ["w.h5"] rfl

/-- C4: when the weights file is absent at the destination, `load_model`'s
effect trace is exactly one download followed by the weights load: the download
is triggered exactly once and completes before `model.load_weights` runs. -/
theorem download_once_before_weights_load (className url : String) (fs : FS)
    (h : isfile fs (outputPath className) = false) :
    (load_model className url fs).2.2
      = [Event.download (resolvedUrl className url) (outputPath className),
         Event.load_weights (outputPath className)] := by
  rw [aux_load_model_eq, aux_download_absent _ _ _ h]
  rfl

/-- Witness for C4: an empty filesystem has no weights file, and the trace is
one download then one load. -/
theorem download_once_before_weights_load_witness :
    (load_model "FaceNet128dClient" "https://u.example" []).2.2
      = [Event.download (resolvedUrl "FaceNet128dClient" "https://u.example")
           (outputPath "FaceNet128dClient"),
         Event.load_weights (outputPath "FaceNet128dClient")] :=
  download_once_before_weights_load "FaceNet128dClient" "https://u.example" [] rfl

/-- C5: `_inception_res_netV2` is deterministic — two invocations with the same
dimension produce equal graphs, hence identical layer sequences, layer names
and shape signatures.  In this embedding the builder is a pure function whose
only argument is the dimensionality, mirroring the source construction, which
reads no input besides the `dimension` parameter. -/
theorem inception_res_netV2_deterministic (d₁ d₂ : Nat) (h : d₁ = d₂) :
    _inception_res_netV2 d₁ = _inception_res_netV2 d₂ := by rw [h]

/-- Witness for C5 at dimension 128. -/
theorem inception_res_netV2_deterministic_witness :
    _inception_res_netV2 128 = _inception_res_netV2 128 :=
  inception_res_netV2_deterministic 128 128 rfl

/-- C6: every failure inside `load_model` propagates to the caller as the
underlying framework-native error, unchanged: whenever the fallible embedding
returns an error, that error is verbatim the error returned by the network
download oracle or by the weights-load oracle (no catching, no translation; the
straight-line control flow also makes each call happen at most once, so nothing
is retried). -/
theorem load_model_errors_propagate_unchanged {ε : Type}
    (gdown : String → String → Except ε Unit) (loadWeights : String → Except ε Unit)
    (className url : String) (fs : FS) (e : ε)
    (h : load_modelE gdown loadWeights className url fs = Except.error e) :
    gdown (resolvedUrl className url) (outputPath className) = Except.error e
      ∨ loadWeights (outputPath className) = Except.error e := by
  have hE : load_modelE gdown loadWeights className url fs =
      (match BaseModel._downloadE gdown (resolvedUrl className url) (outputPath className) fs with
       | Except.error e => Except.error e
       | Except.ok fs2 =>
         match loadWeights (outputPath className) with
         | Except.error e => Except.error e
         | Except.ok _ => Except.ok (_inception_res_netV2
             (if className == "FaceNet128dClient" then 128 else 512), fs2)) := by
    cases hc : className == "FaceNet128dClient" <;>
      simp only [load_modelE, resolvedUrl, outputPath, hc, if_true, if_false, Bool.false_eq_true]
  rw [hE] at h
  cases hd : BaseModel._downloadE gdown (resolvedUrl className url) (outputPath className) fs with
  | error e2 =>
      rw [hd] at h
      simp only [Except.error.injEq] at h
      exact Or.inl (aux_downloadE_error gdown _ _ fs e (hd.trans (congrArg Except.error h)))
  | ok fs2 =>
      rw [hd] at h
      cases hw : loadWeights (outputPath className) with
      | error e2 =>
          rw [hw] at h
          simp only [Except.error.injEq] at h
          exact Or.inr (congrArg Except.error h)
      | ok u =>
          rw [hw] at h
          simp at h

/-- Witness for C6: a failing network oracle makes `load_modelE` return exactly
that error. -/
theorem load_model_errors_propagate_unchanged_witness :
    (fun _ _ : String => (Except.error "network down" : Except String Unit))
        (resolvedUrl "FaceNet128dClient" "https://u.example") (outputPath "FaceNet128dClient")
      = Except.error "network down"
    ∨ (fun _ : String => (Except.ok () : Except String Unit)) (outputPath "FaceNet128dClient")
      = Except.error "network down" :=
  load_model_errors_propagate_unchanged
    (fun _ _ => Except.error "network down") (fun _ => Except.ok ())
    "FaceNet128dClient" "https://u.example" [] "network down" rfl

/-- C7: `_download` is idempotent as a side effect — after one run, a second
run with the same arguments finds the file present, performs no effect and
leaves the filesystem exactly as the first run left it. -/
theorem download_idempotent (url output : String) (fs : FS) :
    BaseModel._download url output (BaseModel._download url output fs).1
      = ((BaseModel._download url output fs).1, []) := by
  cases hf : isfile fs output
  · rw [aux_download_absent url output fs hf]
    exact aux_download_present url output _ (by simp [isfile])
  · rw [aux_download_present url output fs hf]
    exact aux_download_present url output fs hf

set_option maxRecDepth 100000 in
/-- C8: for every dimension, the built graph accepts the same fixed input
tensor of shape 160×160×3 — the first layer call is
`Input(shape=(160, 160, 3))` and the model's input shape is `[160, 160, 3]`,
not varying with the embedding dimensionality. -/
theorem input_shape_fixed (d : Nat) :
    (_inception_res_netV2 d).inputShape = [160, 160, 3]
    ∧ (_inception_res_netV2 d).layers.head? = some (LayerCall.inputLayer [160, 160, 3]) :=
  ⟨rfl, rfl⟩

set_option maxRecDepth 100000 in
/-- C9: the residual-branch scaling factors hardcoded in the built graph, each
read off the `Lambda` layer that directly follows its block's terminal
`..._Conv2d_1x1` convolution, are fixed per block family for every dimension:
0.17 for the five Block35 blocks, 0.1 for the ten Block17 blocks, 0.2 for
Block8 blocks 1–5, and 1 for the final Block8_6 block. -/
theorem residual_scaling_factors (d : Nat) :
    scalesWithPrev (_inception_res_netV2 d).layers =
      [(some "Block35_1_Conv2d_1x1", (17/100 : ℚ)),
       (some "Block35_2_Conv2d_1x1", (17/100 : ℚ)),
       (some "Block35_3_Conv2d_1x1", (17/100 : ℚ)),
       (some "Block35_4_Conv2d_1x1", (17/100 : ℚ)),
       (some "Block35_5_Conv2d_1x1", (17/100 : ℚ)),
       (some "Block17_1_Conv2d_1x1", (1/10 : ℚ)),
       (some "Block17_2_Conv2d_1x1", (1/10 : ℚ)),
       (some "Block17_3_Conv2d_1x1", (1/10 : ℚ)),
       (some "Block17_4_Conv2d_1x1", (1/10 : ℚ)),
       (some "Block17_5_Conv2d_1x1", (1/10 : ℚ)),
       (some "Block17_6_Conv2d_1x1", (1/10 : ℚ)),
       (some "Block17_7_Conv2d_1x1", (1/10 : ℚ)),
       (some "Block17_8_Conv2d_1x1", (1/10 : ℚ)),
       (some "Block17_9_Conv2d_1x1", (1/10 : ℚ)),
       (some "Block17_10_Conv2d_1x1", (1/10 : ℚ)),
       (some "Block8_1_Conv2d_1x1", (2/10 : ℚ)),
       (some "Block8_2_Conv2d_1x1", (2/10 : ℚ)),
       (some "Block8_3_Conv2d_1x1", (2/10 : ℚ)),
       (some "Block8_4_Conv2d_1x1", (2/10 : ℚ)),
       (some "Block8_5_Conv2d_1x1", (2/10 : ℚ)),
       (some "Block8_6_Conv2d_1x1", (1 : ℚ))] := rfl

/-- C10: for every class other than `FaceNet128dClient`, the `url` argument of
`load_model` has no effect on the result or any side effect — it is overwritten
with the fixed FaceNet512 URL, so two calls differing only in `url` return the
same model, the same filesystem and the same effect trace. -/
theorem load_model_url_ignored_unless_128 (className : String)
    (h : className ≠ "FaceNet128dClient") (u₁ u₂ : String) (fs : FS) :
    load_model className u₁ fs = load_model className u₂ fs := by
  have hb : (className == "FaceNet128dClient") = false := beq_eq_false_iff_ne.mpr h
  rw [aux_load_model_eq, aux_load_model_eq]
  simp [resolvedUrl, hb]

/-- Witness for C10 on the 512-dimensional client class with two distinct
URLs. -/
theorem load_model_url_ignored_unless_128_witness :
    load_model "FaceNet512dClient" "https://u1.example" []
      = load_model "FaceNet512dClient" "https://u2.example" [] :=
  load_model_url_ignored_unless_128 "FaceNet512dClient" (by decide)
    "https://u1.example" "https://u2.example" []

end FeelFlow
